import Mathlib

/-!
Shallow embedding of `src/app.js`, a Slack bot that guides a user through
selecting an industry and a business category, then forwards a free-text
query to a completion API and posts the answer.

The embedding keeps the source's names where Lean allows it:
`INDUSTRIES`, `CATEGORIES`, `userContexts` (as `Store`), `updateHomeTab`
(as `homeTabBlocks`), `generateAIResponse`, the action / view / command
handlers, and the startup environment check.
-/

namespace AIBoard

/-- The fixed industry table, in the declared order of `INDUSTRIES`
(`src/app.js` lines 46-55): key (value) paired with its display label. -/
def INDUSTRIES : List (String × String) :=
  [("manufacturing", "製造業"),
   ("construction", "建設業"),
   ("retail", "小売業"),
   ("agriculture", "農業"),
   ("service", "サービス業"),
   ("professional", "士業"),
   ("medical", "医療"),
   ("restaurant", "飲食業")]

/-- The fixed business-category table, in the declared order of `CATEGORIES`
(`src/app.js` lines 58-63). -/
def CATEGORIES : List (String × String) :=
  [("accounting", "経理"),
   ("hr", "人事"),
   ("admin", "総務"),
   ("sales", "営業支援")]

/-- `INDUSTRIES[k]` in JS: association-list lookup, `none` for undefined. -/
def lookupIndustry (k : String) : Option String :=
  INDUSTRIES.lookup k

/-- `CATEGORIES[k]` in JS: association-list lookup, `none` for undefined. -/
def lookupCategory (k : String) : Option String :=
  CATEGORIES.lookup k

/-- JS template-literal interpolation of a possibly-undefined value:
`undefined` renders as the string "undefined". -/
def jsDisplay (o : Option String) : String :=
  o.getD "undefined"

/-- A user context record stored in `userContexts`.  The code only ever
writes `industry`, but the merge in the selection handler preserves any
other field, so we carry `category` as the spec's data model does. -/
structure Session where
  industry : Option String := none
  category : Option String := none
deriving DecidableEq, Repr

/-- The in-memory `userContexts` map: `none` models a key absent from the
`Map` (so `Map.get` yields `undefined`). -/
abbrev Store := String → Option Session

/-- The empty store: no user has interacted yet. -/
def emptyStore : Store := fun _ => none

/-- JS truthiness of `userContext.industry` (a string field that may be
undefined): falsy iff undefined or the empty string. -/
def truthyStr : Option String → Bool
  | none => false
  | some s => !s.isEmpty

/-- An element of a Slack `actions` block. -/
inductive Element where
  | staticSelect (placeholder actionId : String) (options : List (String × String))
  | button (text value actionId : String)
deriving DecidableEq, Repr

/-- A Slack layout block (only the kinds this app emits). -/
inductive Block where
  | header (text : String)
  | sectionB (text : String)
  | actions (elements : List Element)
  | inputB (blockId actionId label placeholder : String) (multiline : Bool)
deriving DecidableEq, Repr

/-- The industry options of the home-tab static select
(`Object.entries(INDUSTRIES).map` at lines 123-130): (text, value) pairs. -/
def industryOptions : List (String × String) :=
  INDUSTRIES.map (fun p => (p.2, p.1))

/-- The category buttons appended when an industry is set
(`Object.entries(CATEGORIES).map` at lines 147-156). -/
def categoryButtons : List Element :=
  CATEGORIES.map (fun p => Element.button p.2 p.1 ("category_" ++ p.1))

/-- The three blocks every home view starts with (lines 96-134). -/
def homeBaseBlocks : List Block :=
  [Block.header "Softdoing AI ボード 🤖",
   Block.sectionB "業務効率化のためのAIアシスタントへようこそ！\n業種を選択して始めましょう。",
   Block.actions [Element.staticSelect "業種を選択" "select_industry" industryOptions]]

/-- The section shown once an industry is chosen (lines 138-144); the JS
template interpolates `INDUSTRIES[userContext.industry]`. -/
def selectedIndustrySection (industryKey : String) : Block :=
  Block.sectionB ("*選択された業種: " ++ jsDisplay (lookupIndustry industryKey) ++
    "*\n以下のカテゴリから選択してください：")

/-- `updateHomeTab`'s block list as a function of the user context
(lines 92-167); the context defaults to `{}` when the user is absent. -/
def homeTabBlocks (uctx : Session) : List Block :=
  homeBaseBlocks ++
    (if truthyStr uctx.industry then
      [selectedIndustrySection (uctx.industry.getD ""),
       Block.actions categoryButtons]
    else [])

/-- The home view published for `userId` given the current store
(`userContexts.get(userId) || {}` at line 94). -/
def publishedHomeFor (store : Store) (userId : String) : List Block :=
  homeTabBlocks ((store userId).getD {})

/-- The double-quote character, written by code point to keep string
parsing definitions free of quote-heavy literals. -/
def quoteChar : Char := '\"'

/-- `JSON.stringify({ industry, category })` at lines 241-244: the exact
serialized form, `\x7b"industry":"I","category":"C"\x7d`. -/
def stringifyMetadata (industry category : String) : String :=
  "\x7b\"industry\":\"" ++ industry ++ "\",\"category\":\"" ++ category ++ "\"\x7d"

/-- Drop an exact expected run of characters, failing on any mismatch. -/
def dropExact : List Char → List Char → Option (List Char)
  | [], rest => some rest
  | _ :: _, [] => none
  | p :: ps, c :: cs => if p = c then dropExact ps cs else none

/-- Scan up to (and consuming) the next double quote, returning the
characters before it and the remainder after it. -/
def takeUntilQuote : List Char → Option (List Char × List Char)
  | [] => none
  | c :: rest =>
    if c = quoteChar then some ([], rest)
    else (takeUntilQuote rest).map (fun p => (c :: p.1, p.2))

/-- Characters opening the serialized record up to the industry value. -/
def metaOpen : List Char := "\x7b\"industry\":\"".data

/-- Characters between the industry value's closing quote and the
category value's opening quote. -/
def metaMid : List Char := ",\"category\":\"".data

/-- Characters after the category value's closing quote. -/
def metaClose : List Char := "\x7d".data

/-- `JSON.parse(view.private_metadata)` at line 258, restricted to the
shape `stringifyMetadata` emits (the only shape the app ever attaches):
returns the industry and category fields, `none` on any other input. -/
def parseMetadata (s : String) : Option (String × String) := do
  let r1 ← dropExact metaOpen s.data
  let (ind, r2) ← takeUntilQuote r1
  let r3 ← dropExact metaMid r2
  let (cat, r4) ← takeUntilQuote r3
  if r4 = metaClose then some (String.mk ind, String.mk cat) else none

/-- The modal view opened by a category action (lines 201-246): only the
fields the claims inspect. -/
structure ModalView where
  callbackId : String
  title : String
  blocks : List Block
  privateMetadata : String
deriving DecidableEq, Repr

/-- The modal a category handler opens for a given context industry and
category key (the `views.open` payload, lines 201-246). -/
def categoryModal (industryKey categoryKey : String) : ModalView :=
  { callbackId := "modal_submit",
    title := jsDisplay (lookupCategory categoryKey) ++ "サポート",
    blocks := [Block.inputB "query_block" "query_input" "質問内容"
      "ご質問や依頼内容を入力してください" true],
    privateMetadata := stringifyMetadata industryKey categoryKey }

/-- What an action handler did: the acknowledgement always happens first
(`await ack()`), then at most one store update, one modal open, and one
home-view publish. -/
structure ActionResult where
  acked : Bool
  store : Store
  openedModal : Option ModalView := none
  publishedHome : Option (List Block) := none

/-- The `select_industry` handler (lines 174-190): ack, then merge the
selected value into the user's context (`\x7b...userContexts.get(userId),
industry: selectedIndustry\x7d` — spread of `undefined` is `\x7b\x7d`), then
re-render the home tab from the updated store. -/
def selectIndustryAction (store : Store) (userId selectedIndustry : String) :
    ActionResult :=
  let newS : Session := { (store userId).getD {} with industry := some selectedIndustry }
  let store' : Store := fun x => if x = userId then some newS else store x
  { acked := true,
    store := store',
    publishedHome := some (publishedHomeFor store' userId) }

/-- A `category_*` handler (lines 193-251): ack, then no-op unless the
user has a context with a truthy `industry` (`if (!userContext ||
!userContext.industry) return`), else open the query modal carrying the
serialized metadata.  The store is never written. -/
def categoryAction (store : Store) (userId categoryKey : String) : ActionResult :=
  match store userId with
  | none => { acked := true, store := store }
  | some uctx =>
    if truthyStr uctx.industry then
      { acked := true, store := store,
        openedModal := some (categoryModal (uctx.industry.getD "") categoryKey) }
    else { acked := true, store := store }

/-- A chat message of the completion request. -/
structure ChatMessage where
  role : String
  content : String
deriving DecidableEq, Repr

/-- The completion request built by `generateAIResponse` (lines 71-82):
fixed model, two messages.  (The fixed sampling temperature is part of the
payload but carries no information the claims touch.) -/
structure ChatRequest where
  model : String
  messages : List ChatMessage
deriving DecidableEq, Repr

/-- The system-role content of the prompt (lines 76-77): the template
literal spans two source lines, so it embeds a newline and the 19 spaces
of source indentation verbatim. -/
def systemContent (industry category : String) : String :=
  "あなたは" ++ industry ++ "向けの" ++ category ++
    "専門アシスタントです。\n                   専門的かつ実用的なアドバイスを提供してください。"

/-- `generateAIResponse`'s request (lines 71-82): the system instruction
parameterized by the two labels (`industry || ''`, `category || ''`), and
the user role carrying the prompt verbatim. -/
def buildRequest (prompt : String) (industry category : Option String) : ChatRequest :=
  { model := "gpt-4",
    messages :=
      [{ role := "system", content := systemContent (industry.getD "") (category.getD "") },
       { role := "user", content := prompt }] }

/-- The fixed localized fallback returned when the completion call fails
(line 87). -/
def fallbackMessage : String :=
  "申し訳ありません。現在AIの応答に問題が発生しています。"

/-- `generateAIResponse` (lines 69-89), with the external call abstracted
as an oracle `complete` whose `.error` case models any thrown error.
Returns the text handed back to the caller and the log lines written:
on failure the fixed fallback is returned and the cause is logged. -/
def generateAIResponse (complete : ChatRequest → Except String String)
    (prompt : String) (industry category : Option String) : String × List String :=
  match complete (buildRequest prompt industry category) with
  | .ok content => (content, [])
  | .error err => (fallbackMessage, ["OpenAI API Error: " ++ err])

/-- A `chat.postMessage` payload (lines 264-276). -/
structure PostedMessage where
  channel : String
  text : String
  blocks : List Block
deriving DecidableEq, Repr

/-- The `modal_submit` view handler (lines 254-280): parse the round-
tripped metadata (a parse failure throws, is caught, and nothing is
posted), run the completion with `INDUSTRIES[industry]` and
`CATEGORIES[category]` as labels, and post the answer message to the
user.  Returns the posted message (if any) and the log lines. -/
def modalSubmit (complete : ChatRequest → Except String String)
    (privateMetadata query userId : String) : Option PostedMessage × List String :=
  match parseMetadata privateMetadata with
  | none => (none, ["Error handling modal submission"])
  | some (industry, category) =>
    let r := generateAIResponse complete query (lookupIndustry industry) (lookupCategory category)
    (some { channel := userId,
            text := r.1,
            blocks := [Block.sectionB ("*" ++ jsDisplay (lookupIndustry industry) ++ " - " ++
              jsDisplay (lookupCategory category) ++ "に関する回答*\n\n" ++ r.1)] },
     r.2)

/-- The blocks of the `/ai-board` slash command's ephemeral response
(lines 287-317): an industry picker whose select uses the distinct action
id `command_select_industry`. -/
def slashCommandBlocks : List Block :=
  [Block.sectionB "AIボードを起動しました。以下から業種を選択してください：",
   Block.actions [Element.staticSelect "業種を選択" "command_select_industry" industryOptions]]

/-- The `/ai-board` handler (lines 283-326): ack and respond ephemerally;
the body performs no read or write of `userContexts`, so the store passes
through untouched. -/
def slashCommand (store : Store) : Store × List Block :=
  (store, slashCommandBlocks)

/-- The action ids for which `app.action` registers a handler:
`select_industry` (line 174) and one `category_<key>` per category key
(lines 193-194).  No other action id — in particular not
`command_select_industry` — is registered. -/
def registeredActionIds : List String :=
  "select_industry" :: CATEGORIES.map (fun p => "category_" ++ p.1)

/-- Dispatch of an inbound block action by its action id: registered ids
run their handler; an unregistered id has no handler, so nothing is
acknowledged, no store write happens, and no view is opened or updated. -/
def dispatchAction (store : Store) (actionId userId value : String) : ActionResult :=
  if actionId = "select_industry" then
    selectIndustryAction store userId value
  else
    match CATEGORIES.find? (fun p => actionId = "category_" ++ p.1) with
    | some p => categoryAction store userId p.1
    | none => { acked := false, store := store }

/-- The required environment variables (lines 6-11). -/
def requiredEnvVars : List String :=
  ["SLACK_BOT_TOKEN", "SLACK_SIGNING_SECRET", "SLACK_APP_TOKEN", "OPENAI_API_KEY"]

/-- An environment: `none` models a variable absent from `process.env`
(note a variable may also be present with the empty string as value). -/
abbrev Env := String → Option String

/-- JS falsiness of `process.env[v]` (line 13): absent, or present but
empty — the only falsy string is `""`. -/
def envFalsy (v : Option String) : Bool :=
  match v with
  | none => true
  | some s => s.isEmpty

/-- `missingEnvVars` (line 13): the required variables whose value is
falsy, in declaration order. -/
def missingEnvVars (env : Env) : List String :=
  requiredEnvVars.filter (fun v => envFalsy (env v))

/-- Outcome of the startup validation (lines 15-19). -/
structure StartupResult where
  exited : Bool
  diagnostics : List String
deriving DecidableEq, Repr

/-- The startup validation (lines 15-19): if any required variable is
falsy, print the header and one `- NAME` line per missing variable and
exit(1); otherwise start normally. -/
def startupCheck (env : Env) : StartupResult :=
  let missing := missingEnvVars env
  if missing.length > 0 then
    { exited := true,
      diagnostics := "Error: Missing required environment variables:" ::
        missing.map (fun v => "- " ++ v) }
  else
    { exited := false, diagnostics := [] }

/-- Whether a block is a category-selection control: an `actions` block
holding at least one button (buttons are only ever category buttons). -/
def isCategoryActions : Block → Bool
  | Block.actions es => es.any fun e =>
      match e with
      | Element.button _ _ _ => true
      | _ => false
  | _ => false

/-- Whether a block is the selected-industry label: a section whose text
starts with the fixed marker of `selectedIndustrySection`. -/
def isSelectedIndustrySection : Block → Bool
  | Block.sectionB t => "*選択された業種".data.isPrefixOf t.data
  | _ => false

/-- A store holding one user whose context has an industry: concrete
input used to instantiate hypotheses. -/
def storeWithIndustry : Store := fun u =>
  if u = "U1" then some { industry := some "manufacturing" } else none

/-- A store holding one user whose context has both an industry and a
category: concrete input used to instantiate hypotheses. -/
def storeWithBoth : Store := fun u =>
  if u = "U1" then some { industry := some "retail", category := some "hr" } else none

/-- An environment with the bot credential absent and everything else
set nonempty: concrete input used to instantiate hypotheses. -/
def envOnlyBotMissing : Env := fun v =>
  if v = "SLACK_BOT_TOKEN" then none else some "x"

/-- An environment with the bot credential absent and the completion-API
key present but empty: concrete input distinguishing JS falsiness from
absence. -/
def envBotMissingKeyEmpty : Env := fun v =>
  if v = "SLACK_BOT_TOKEN" then none
  else if v = "OPENAI_API_KEY" then some ""
  else some "x"

/-- An oracle whose every call fails: concrete input used to instantiate
hypotheses. -/
def alwaysFailing : ChatRequest → Except String String := fun _ => Except.error "boom"

/-- An oracle whose every call succeeds with a fixed answer: concrete
input used to instantiate hypotheses. -/
def alwaysAnswering : ChatRequest → Except String String := fun _ => Except.ok "answer text"

/-! Helper lemmas about the embedded definitions. -/

theorem dropExact_append (p r : List Char) : dropExact p (p ++ r) = some r := by
  induction p with
  | nil => rfl
  | cons c ps ih => simp [dropExact, ih]

theorem takeUntilQuote_append (s r : List Char) (h : quoteChar ∉ s) :
    takeUntilQuote (s ++ quoteChar :: r) = some (s, r) := by
  induction s with
  | nil => simp [takeUntilQuote]
  | cons c t ih =>
    simp only [List.mem_cons, not_or] at h
    have hc : ¬(c = quoteChar) := fun hh => h.1 hh.symm
    simp [takeUntilQuote, hc, ih h.2]

theorem stringifyMetadata_data (i c : String) :
    (stringifyMetadata i c).data =
      metaOpen ++ (i.data ++ quoteChar ::
        (metaMid ++ (c.data ++ quoteChar :: metaClose))) := by
  simp only [stringifyMetadata, String.data_append, metaOpen, metaMid, metaClose,
    quoteChar, List.append_assoc, List.cons_append]

theorem parse_stringify (i c : String)
    (hi : quoteChar ∉ i.data) (hc : quoteChar ∉ c.data) :
    parseMetadata (stringifyMetadata i c) = some (i, c) := by
  simp [parseMetadata, stringifyMetadata_data, dropExact_append, takeUntilQuote_append,
    hi, hc]

theorem industryKey_facts (i : String) (hi : i ∈ INDUSTRIES.map Prod.fst) :
    quoteChar ∉ i.data ∧ i.isEmpty = false := by
  simp only [INDUSTRIES, List.map_cons, List.map_nil] at hi
  fin_cases hi <;> decide

theorem categoryKey_facts (c : String) (hc : c ∈ CATEGORIES.map Prod.fst) :
    quoteChar ∉ c.data := by
  simp only [CATEGORIES, List.map_cons, List.map_nil] at hc
  fin_cases hc <;> decide

theorem lookupIndustry_mem (i li : String) (h : (i, li) ∈ INDUSTRIES) :
    lookupIndustry i = some li := by
  simp only [INDUSTRIES] at h
  fin_cases h <;> rfl

theorem lookupCategory_mem (c lc : String) (h : (c, lc) ∈ CATEGORIES) :
    lookupCategory c = some lc := by
  simp only [CATEGORIES] at h
  fin_cases h <;> rfl

theorem dashLine_ne_header (v : String) :
    ("- " ++ v) ≠ "Error: Missing required environment variables:" := by
  intro h
  have h2 : ("- " ++ v).data.head? = some '-' := by
    rw [String.data_append]
    have h3 : ("- " : String).data = ['-', ' '] := by decide
    rw [h3]
    rfl
  rw [h] at h2
  exact absurd h2 (by decide)

theorem string_append_left_cancel (p a b : String) (h : p ++ a = p ++ b) : a = b := by
  have h2 := congrArg String.data h
  simp only [String.data_append] at h2
  exact String.ext (List.append_cancel_left h2)

theorem mem_dash_map (v : String) (l : List String) :
    ("- " ++ v) ∈ l.map (fun w => "- " ++ w) ↔ v ∈ l := by
  constructor
  · intro h
    rcases List.mem_map.mp h with ⟨w, hw, he⟩
    rwa [string_append_left_cancel "- " w v he] at hw
  · intro h
    exact List.mem_map_of_mem _ h

/-! Claims. -/

/-- C1: for every user whose context has no industry set (or no context
at all), any of the four category actions acknowledges the event and then
no-ops: no modal is opened, no view is published, and the store is
returned unchanged. -/
theorem c1_category_action_noop (store : Store) (userId categoryKey : String)
    (h : store userId = none ∨ ∃ s, store userId = some s ∧ s.industry = none) :
    categoryAction store userId categoryKey =
      { acked := true, store := store, openedModal := none, publishedHome := none } := by
  rcases h with h | ⟨s, hs, hind⟩
  · simp [categoryAction, h]
  · simp [categoryAction, hs, hind, truthyStr]

/-- Witness for C1 at the empty store and the `accounting` category. -/
theorem c1_category_action_noop_witness :
    categoryAction emptyStore "U1" "accounting" =
      { acked := true, store := emptyStore, openedModal := none, publishedHome := none } :=
  c1_category_action_noop emptyStore "U1" "accounting" (Or.inl rfl)

/-- C2: for every user whose context has industry `i` from the fixed set
and every category key from the fixed set, the category action opens a
modal, and parsing that modal's private metadata (as the submit handler
does) yields exactly the pair that was serialized on open. -/
theorem c2_metadata_roundtrip (store : Store) (userId i categoryKey : String) (s : Session)
    (hs : store userId = some s) (hind : s.industry = some i)
    (hi : i ∈ INDUSTRIES.map Prod.fst) (hc : categoryKey ∈ CATEGORIES.map Prod.fst) :
    ∃ m, (categoryAction store userId categoryKey).openedModal = some m ∧
      parseMetadata m.privateMetadata = some (i, categoryKey) := by
  have hfacts := industryKey_facts i hi
  have hcq := categoryKey_facts categoryKey hc
  refine ⟨categoryModal i categoryKey, ?_, ?_⟩
  · simp [categoryAction, hs, hind, truthyStr, hfacts.2]
  · simpa [categoryModal] using parse_stringify i categoryKey hfacts.1 hcq

/-- Witness for C2 at a store holding one user with industry
`manufacturing`, firing the `accounting` category action. -/
theorem c2_metadata_roundtrip_witness :
    ∃ m, (categoryAction storeWithIndustry "U1" "accounting").openedModal = some m ∧
      parseMetadata m.privateMetadata = some ("manufacturing", "accounting") :=
  c2_metadata_roundtrip storeWithIndustry "U1" "manufacturing" "accounting"
    { industry := some "manufacturing" } (by decide) rfl (by decide) (by decide)

/-- C3: for every query and every failing completion oracle (any thrown
error), `generateAIResponse` returns the fixed fallback string and logs
the cause, and the modal-submit handler posts a message whose text is
that fallback — never empty — with the fallback also rendered in the
message block; no failure propagates. -/
theorem c3_completion_failure_fallback (complete : ChatRequest → Except String String)
    (e : String) (hfail : ∀ r, complete r = Except.error e)
    (md query userId industry categoryKey : String)
    (hm : parseMetadata md = some (industry, categoryKey)) :
    (∀ io co : Option String,
      (generateAIResponse complete query io co).1 = fallbackMessage ∧
      ("OpenAI API Error: " ++ e) ∈ (generateAIResponse complete query io co).2) ∧
    (∃ msg, (modalSubmit complete md query userId).1 = some msg ∧
      msg.text = fallbackMessage ∧
      msg.text ≠ "" ∧
      msg.blocks = [Block.sectionB ("*" ++ jsDisplay (lookupIndustry industry) ++ " - " ++
        jsDisplay (lookupCategory categoryKey) ++ "に関する回答*\n\n" ++ fallbackMessage)]) ∧
    ("OpenAI API Error: " ++ e) ∈ (modalSubmit complete md query userId).2 := by
  refine ⟨fun io co => ⟨by simp [generateAIResponse, hfail],
      by simp [generateAIResponse, hfail]⟩,
    ⟨{ channel := userId, text := fallbackMessage,
       blocks := [Block.sectionB ("*" ++ jsDisplay (lookupIndustry industry) ++ " - " ++
         jsDisplay (lookupCategory categoryKey) ++ "に関する回答*\n\n" ++ fallbackMessage)] },
      ?_, rfl, ?_, rfl⟩, ?_⟩
  · simp [modalSubmit, hm, generateAIResponse, hfail]
  · show fallbackMessage ≠ ""
    decide
  · simp [modalSubmit, hm, generateAIResponse, hfail]

/-- Witness for C3: the always-failing oracle, metadata for
(`manufacturing`, `accounting`), and a concrete query. -/
theorem c3_completion_failure_fallback_witness :
    (∀ io co : Option String,
      (generateAIResponse alwaysFailing "質問" io co).1 = fallbackMessage ∧
      ("OpenAI API Error: " ++ "boom") ∈ (generateAIResponse alwaysFailing "質問" io co).2) ∧
    (∃ msg,
      (modalSubmit alwaysFailing (stringifyMetadata "manufacturing" "accounting")
        "質問" "U1").1 = some msg ∧
      msg.text = fallbackMessage ∧
      msg.text ≠ "" ∧
      msg.blocks = [Block.sectionB ("*" ++ jsDisplay (lookupIndustry "manufacturing") ++ " - " ++
        jsDisplay (lookupCategory "accounting") ++ "に関する回答*\n\n" ++ fallbackMessage)]) ∧
    ("OpenAI API Error: " ++ "boom") ∈
      (modalSubmit alwaysFailing (stringifyMetadata "manufacturing" "accounting")
        "質問" "U1").2 :=
  c3_completion_failure_fallback alwaysFailing "boom" (fun _ => rfl)
    (stringifyMetadata "manufacturing" "accounting") "質問" "U1"
    "manufacturing" "accounting" (by decide)

/-- C4: on modal submit with round-tripped industry/category keys from
the fixed tables, the completion request is exactly two messages — the
fixed system instruction parameterized by the two display labels, and a
user message carrying the query verbatim — and the posted message carries
the returned completion text together with the two display labels. -/
theorem c4_prompt_shape_and_post (complete : ChatRequest → Except String String)
    (query userId i li categoryKey lc out : String)
    (hi : (i, li) ∈ INDUSTRIES) (hc : (categoryKey, lc) ∈ CATEGORIES)
    (hok : complete (buildRequest query (some li) (some lc)) = Except.ok out) :
    (buildRequest query (some li) (some lc)).messages =
      [{ role := "system", content := systemContent li lc },
       { role := "user", content := query }] ∧
    (modalSubmit complete (stringifyMetadata i categoryKey) query userId).1 =
      some { channel := userId, text := out,
             blocks := [Block.sectionB ("*" ++ li ++ " - " ++ lc ++
               "に関する回答*\n\n" ++ out)] } := by
  have hli := lookupIndustry_mem i li hi
  have hlc := lookupCategory_mem categoryKey lc hc
  have hikey : i ∈ INDUSTRIES.map Prod.fst := List.mem_map_of_mem _ hi
  have hckey : categoryKey ∈ CATEGORIES.map Prod.fst := List.mem_map_of_mem _ hc
  have hfacts := industryKey_facts i hikey
  have hcq := categoryKey_facts categoryKey hckey
  refine ⟨rfl, ?_⟩
  simp [modalSubmit, parse_stringify i categoryKey hfacts.1 hcq, hli, hlc,
    generateAIResponse, hok, jsDisplay]

/-- Witness for C4: the always-answering oracle, industry
`manufacturing`, category `accounting`, a concrete query and user. -/
theorem c4_prompt_shape_and_post_witness :
    (buildRequest "質問" (some "製造業") (some "経理")).messages =
      [{ role := "system", content := systemContent "製造業" "経理" },
       { role := "user", content := "質問" }] ∧
    (modalSubmit alwaysAnswering (stringifyMetadata "manufacturing" "accounting")
      "質問" "U1").1 =
      some { channel := "U1", text := "answer text",
             blocks := [Block.sectionB ("*" ++ "製造業" ++ " - " ++ "経理" ++
               "に関する回答*\n\n" ++ "answer text")] } :=
  c4_prompt_shape_and_post alwaysAnswering "質問" "U1" "manufacturing" "製造業"
    "accounting" "経理" "answer text" (by decide) (by decide) rfl

/-- C5: for every user with no store entry (never interacted, so the
default empty context is used), the rendered home view is exactly the
three base blocks, whose selection control carries exactly the 8 fixed
industry options, and no block is a category section or a
selected-industry label. -/
theorem c5_home_default (store : Store) (userId : String) (h : store userId = none) :
    publishedHomeFor store userId = homeBaseBlocks ∧
    industryOptions =
      [("製造業", "manufacturing"), ("建設業", "construction"), ("小売業", "retail"),
       ("農業", "agriculture"), ("サービス業", "service"), ("士業", "professional"),
       ("医療", "medical"), ("飲食業", "restaurant")] ∧
    industryOptions.length = 8 ∧
    (publishedHomeFor store userId).all
      (fun b => !isCategoryActions b && !isSelectedIndustrySection b) = true := by
  have hb : publishedHomeFor store userId = homeBaseBlocks := by
    simp [publishedHomeFor, h, homeTabBlocks, truthyStr]
  refine ⟨hb, by decide, by decide, ?_⟩
  rw [hb]
  decide

/-- Witness for C5 at the empty store. -/
theorem c5_home_default_witness :
    publishedHomeFor emptyStore "U1" = homeBaseBlocks ∧
    industryOptions =
      [("製造業", "manufacturing"), ("建設業", "construction"), ("小売業", "retail"),
       ("農業", "agriculture"), ("サービス業", "service"), ("士業", "professional"),
       ("医療", "medical"), ("飲食業", "restaurant")] ∧
    industryOptions.length = 8 ∧
    (publishedHomeFor emptyStore "U1").all
      (fun b => !isCategoryActions b && !isSelectedIndustrySection b) = true :=
  c5_home_default emptyStore "U1" rfl

/-- C6: for every industry value `v` of the fixed set (with display label
`lbl`), the selection handler publishes a home view that appends exactly
the label section echoing `lbl` and the 4 fixed category buttons in their
declared order; re-firing the same selection with the same value leaves
the whole store unchanged. -/
theorem c6_industry_selection (store : Store) (userId v lbl : String)
    (hv : (v, lbl) ∈ INDUSTRIES) :
    (selectIndustryAction store userId v).publishedHome =
      some (homeBaseBlocks ++
        [Block.sectionB ("*選択された業種: " ++ lbl ++ "*\n以下のカテゴリから選択してください："),
         Block.actions categoryButtons]) ∧
    categoryButtons =
      [Element.button "経理" "accounting" "category_accounting",
       Element.button "人事" "hr" "category_hr",
       Element.button "総務" "admin" "category_admin",
       Element.button "営業支援" "sales" "category_sales"] ∧
    (selectIndustryAction (selectIndustryAction store userId v).store userId v).store =
      (selectIndustryAction store userId v).store := by
  have hli := lookupIndustry_mem v lbl hv
  have hkey : v ∈ INDUSTRIES.map Prod.fst := List.mem_map_of_mem _ hv
  have hfacts := industryKey_facts v hkey
  refine ⟨?_, by decide, ?_⟩
  · simp [selectIndustryAction, publishedHomeFor, homeTabBlocks, truthyStr, hfacts.2,
      selectedIndustrySection, jsDisplay, hli]
  · funext x
    by_cases hx : x = userId
    · subst hx
      simp [selectIndustryAction]
    · simp [selectIndustryAction, hx]

/-- Witness for C6 at the empty store with `manufacturing`. -/
theorem c6_industry_selection_witness :
    (selectIndustryAction emptyStore "U1" "manufacturing").publishedHome =
      some (homeBaseBlocks ++
        [Block.sectionB ("*選択された業種: " ++ "製造業" ++ "*\n以下のカテゴリから選択してください："),
         Block.actions categoryButtons]) ∧
    categoryButtons =
      [Element.button "経理" "accounting" "category_accounting",
       Element.button "人事" "hr" "category_hr",
       Element.button "総務" "admin" "category_admin",
       Element.button "営業支援" "sales" "category_sales"] ∧
    (selectIndustryAction (selectIndustryAction emptyStore "U1" "manufacturing").store
      "U1" "manufacturing").store =
      (selectIndustryAction emptyStore "U1" "manufacturing").store :=
  c6_industry_selection emptyStore "U1" "manufacturing" "製造業" (by decide)

/-- C7: handling the slash command returns the store untouched — every
user's context is unchanged — and only responds ephemerally with the
industry picker blocks. -/
theorem c7_slash_command_frame (store : Store) :
    (slashCommand store).1 = store ∧
    (∀ u, (slashCommand store).1 u = store u) ∧
    (slashCommand store).2 = slashCommandBlocks :=
  ⟨rfl, fun _ => rfl, rfl⟩

/-- C9: the industry-selection handler merges into the existing context,
overwriting only the `industry` field: a context that already has a
category keeps it — even when the newly selected industry differs from
the stored one. -/
theorem c9_merge_preserves_category (store : Store) (userId v : String)
    (s : Session) (ck : String)
    (hs : store userId = some s) (hcat : s.category = some ck) :
    (selectIndustryAction store userId v).store userId =
      some { industry := some v, category := some ck } := by
  simp [selectIndustryAction, hs, ← hcat]

/-- Witness for C9: a stored context with industry `retail` and category
`hr`, selecting the different industry `manufacturing`. -/
theorem c9_merge_preserves_category_witness :
    (selectIndustryAction storeWithBoth "U1" "manufacturing").store "U1" =
      some { industry := some "manufacturing", category := some "hr" } :=
  c9_merge_preserves_category storeWithBoth "U1" "manufacturing"
    { industry := some "retail", category := some "hr" } "hr" (by decide) rfl

/-- C10: the router registers handlers exactly for `select_industry` and
the four `category_*` ids; the slash command's ephemeral picker uses the
distinct id `command_select_industry`, which is not registered, so
dispatching a selection made through that picker acknowledges nothing,
writes no session, and opens or updates no view. -/
theorem c10_unregistered_command_picker (store : Store) (userId value : String) :
    registeredActionIds =
      ["select_industry", "category_accounting", "category_hr",
       "category_admin", "category_sales"] ∧
    "command_select_industry" ∉ registeredActionIds ∧
    (slashCommand store).2 =
      [Block.sectionB "AIボードを起動しました。以下から業種を選択してください：",
       Block.actions [Element.staticSelect "業種を選択" "command_select_industry"
         industryOptions]] ∧
    dispatchAction store "command_select_industry" userId value =
      { acked := false, store := store, openedModal := none, publishedHome := none } := by
  have hfind : CATEGORIES.find? (fun p => "command_select_industry" = "category_" ++ p.1)
      = none := by decide
  refine ⟨by decide, by decide, rfl, ?_⟩
  rw [dispatchAction, if_neg (by decide), hfind]

/-- C8 counterexample: an environment where the bot credential is absent
but the completion-API key is present (set to the empty string).  The
claim says the diagnostic lists each missing value and no present one,
yet the code's falsiness check also lists the present `OPENAI_API_KEY`. -/
theorem c8_counterexample :
    envBotMissingKeyEmpty "SLACK_BOT_TOKEN" = none ∧
    (envBotMissingKeyEmpty "OPENAI_API_KEY").isSome = true ∧
    ("- " ++ "OPENAI_API_KEY") ∈ (startupCheck envBotMissingKeyEmpty).diagnostics := by
  refine ⟨rfl, rfl, ?_⟩
  decide

/-- C8 (amended): if any required configuration value is absent or set to
the empty string, the process refuses to start and exits with a
diagnostic; the diagnostic lists, under the fixed header, exactly the
required values that are absent-or-empty — one `- NAME` line per such
value and none for a nonempty present one. -/
theorem c8_missing_env_exits (env : Env)
    (h : ∃ v ∈ requiredEnvVars, envFalsy (env v) = true) :
    (startupCheck env).exited = true ∧
    "Error: Missing required environment variables:" ∈ (startupCheck env).diagnostics ∧
    ∀ v ∈ requiredEnvVars,
      (("- " ++ v) ∈ (startupCheck env).diagnostics ↔ envFalsy (env v) = true) := by
  obtain ⟨w, hw, hwf⟩ := h
  have hmem : w ∈ missingEnvVars env := List.mem_filter.mpr ⟨hw, hwf⟩
  have hpos : (missingEnvVars env).length > 0 := List.length_pos.mpr (List.ne_nil_of_mem hmem)
  refine ⟨?_, ?_, ?_⟩
  · simp [startupCheck, hpos]
  · simp [startupCheck, hpos]
  · intro v hv
    constructor
    · intro hd
      simp only [startupCheck, hpos, if_pos, List.mem_cons] at hd
      rcases hd with hd | hd
      · exact absurd hd (dashLine_ne_header v)
      · have hvm := (mem_dash_map v (missingEnvVars env)).mp hd
        exact (List.mem_filter.mp hvm).2
    · intro hf
      have hvm : v ∈ missingEnvVars env := List.mem_filter.mpr ⟨hv, hf⟩
      simp only [startupCheck, hpos, if_pos, List.mem_cons]
      exact Or.inr ((mem_dash_map v (missingEnvVars env)).mpr hvm)

/-- Witness for the amended C8 at an environment missing exactly the bot
credential. -/
theorem c8_missing_env_exits_witness :
    (∃ v ∈ requiredEnvVars, envFalsy (envOnlyBotMissing v) = true) ∧
    ((startupCheck envOnlyBotMissing).exited = true ∧
     "Error: Missing required environment variables:" ∈
       (startupCheck envOnlyBotMissing).diagnostics ∧
     ∀ v ∈ requiredEnvVars,
       (("- " ++ v) ∈ (startupCheck envOnlyBotMissing).diagnostics ↔
         envFalsy (envOnlyBotMissing v) = true)) :=
  ⟨by decide, c8_missing_env_exits envOnlyBotMissing (by decide)⟩

end AIBoard
